import Mathlib

/-!
Shallow embedding of `src/main.py` (a FastAPI service "Nova Transcribe"):
upload handling, one conditional model-reload branch, transcription via a
third-party whisper model, docx generation, and a download endpoint.

Third-party code (the whisper library, python-docx, FastAPI plumbing) is
modelled abstractly: model loading and transcription are functions supplied
by an environment record and may fail (`Except String _`, the `String`
being the stringification `str(e)` of the raised exception); the docx
document is modelled as the list of items the code adds to it.
Machine floats carried by the code (timestamps, temperature) undergo no
arithmetic in `main.py`, so they are represented by exact rationals.
-/

namespace NovaTranscribe

/-- Bytes of an uploaded or served file. -/
abbrev Bytes := List Nat

/-- JSON values, for response bodies (dicts keep insertion order, as in Python). -/
inductive JsonVal where
  | jnull
  | jbool (b : Bool)
  | jstr (s : String)
  | jnum (q : ℚ)
  | jarr (xs : List JsonVal)
  | jobj (fields : List (String × JsonVal))

/-- An HTTP response: a `JSONResponse`/dict (status code and body) or a
`FileResponse` (the file's bytes, served under the given download name). -/
inductive Response where
  | json (status : Nat) (body : List (String × JsonVal))
  | fileResp (bytes : Bytes) (filename : String)

/-- Values a segment dict field can hold.  `vnum` covers Python ints and
floats (no float arithmetic occurs in `main.py`, so exact rationals
suffice); `vnone` is Python `None`. -/
inductive PyVal where
  | vnone
  | vnum (q : ℚ)
  | vstr (s : String)
deriving DecidableEq

/-- Python `float(v)`: succeeds on numbers, raises otherwise (`None` raises
`TypeError`; string parsing is not modelled, whisper emits numeric
timestamps, so a string value is treated as raising). `none` = raised. -/
def floatCoerce : PyVal → Option ℚ
  | .vnum q => some q
  | _ => none

/-- One element of the whisper result's `segments` list.  Only the keys the
handler reads (`start`, `end`, `text`) are modelled; `none` means the key is
absent from the dict (so `dict.get` returns its default). -/
structure Segment where
  start : Option PyVal
  «end» : Option PyVal
  text : Option String
deriving DecidableEq

/-- The dict returned by `MODEL.transcribe(...)`, restricted to the keys the
handler reads.  `none` conflates an absent key with a key holding `None`;
the handler treats the two identically (`.get(...) or` fallbacks). -/
structure TranscribeResult where
  text : Option String
  segments : Option (List Segment)
  language : Option String

/-- A loaded whisper model.  `name` models `getattr(MODEL, 'name', _)`: the
attribute need not exist (`none`), in which case `getattr` yields its
default argument. -/
structure WhisperModel where
  name : Option String
deriving DecidableEq

/-- One run of a python-docx paragraph: its text and its bold flag. -/
structure DocxRun where
  text : String
  bold : Bool
deriving DecidableEq

/-- One item added to the python-docx `Document`. -/
inductive DocxItem where
  | heading (text : String) (level : Nat)
  | para (runs : List DocxRun)
  | pageBreak
deriving DecidableEq

/-- The generated document, as the sequence of items added to it. -/
abbrev Docx := List DocxItem

/-- Python truthiness fallback `s or d` for an optional string `s` (both
`None` and the empty string are falsy). -/
def pyOrStr : Option String → String → String
  | none, d => d
  | some s, d => if s = "" then d else s

/-- Python truthiness fallback `s or d` for a plain string `s`. -/
def pyOrS (s d : String) : String :=
  if s = "" then d else s

/-- Python `str.strip()` (ASCII whitespace; the strings involved carry no
exotic unicode whitespace). -/
def pyStrip (s : String) : String := s.trim

/-- Python `str.lower()` (ASCII case mapping). -/
def pyLower (s : String) : String := String.mk (s.data.map Char.toLower)

/-- Highest index of `c` in `cs`, or `-1` when absent (Python `str.rfind`). -/
def rfindIdx (cs : List Char) (c : Char) : Int :=
  (List.range cs.length).foldl
    (fun acc i => if cs.get? i = some c then (i : Int) else acc) (-1)

/-- Python `posixpath.splitext`: split off the extension at the last dot of
the basename, except that leading dots of the basename do not start an
extension. -/
def splitext (s : String) : String × String :=
  let cs := s.data
  let sep := rfindIdx cs '/'
  let dot := rfindIdx cs '.'
  if sep < dot then
    if ((cs.drop (sep + 1).toNat).take (dot - sep - 1).toNat).any (fun c => c ≠ '.') then
      (String.mk (cs.take dot.toNat), String.mk (cs.drop dot.toNat))
    else (s, "")
  else (s, "")

/-- Python `os.path.join(a, b)` for one relative-or-absolute component `b`. -/
def pyJoin (a b : String) : String :=
  if b.data.head? = some (Char.ofNat 47) then b else a ++ "/" ++ b

/-- A single-quote character, for reproducing the Python error message. -/
def squote : String := String.singleton (Char.ofNat 39)

/-- Module constant `OUTPUT_DIR = "outputs"`. -/
def OUTPUT_DIR : String := "outputs"

/-- Module constant `DEFAULT_MODEL = os.getenv("WHISPER_MODEL", "base")`,
as a function of the environment variable's value (`none` = unset). -/
def defaultModelName (wm : Option String) : String := wm.getD "base"

/-- The mutable module-global state of the service: the currently loaded
model `MODEL` and the (never reassigned) `DEFAULT_MODEL` string. -/
structure ServerState where
  MODEL : WhisperModel
  DEFAULT_MODEL : String
deriving DecidableEq

/-- The state at startup: `MODEL = whisper.load_model(DEFAULT_MODEL)` with
`DEFAULT_MODEL` computed from the `WHISPER_MODEL` environment variable.
`m` is the model object the initial load produced. -/
def initState (wm : Option String) (m : WhisperModel) : ServerState :=
  { MODEL := m, DEFAULT_MODEL := defaultModelName wm }

/-- The uploaded file: FastAPI `UploadFile.filename` (optional) and the
bytes `await file.read()` returns. -/
structure UploadFile where
  filename : Option String
  content : Bytes

/-- One parsed POST `/api/transcribe` request (form fields after FastAPI
defaulting: `model_size` defaults to `DEFAULT_MODEL`, `task` to
`"transcribe"`, `temperature` to `0.0`, `word_timestamps` to `False`). -/
structure TranscribeRequest where
  file : UploadFile
  model_size : String
  task : String
  temperature : ℚ
  word_timestamps : Option Bool

/-- The ambient world of one request: the third-party calls and the
request-scoped nondeterminism (uuid hex prefix, timestamp), plus Python's
float formatting, uninterpreted.  Exceptions are carried as their `str`. -/
structure TranscribeEnv where
  loadModel : String → Except String WhisperModel
  transcribeFn : WhisperModel → String → String → ℚ → Bool → Except String TranscribeResult
  uid : String
  ts : String
  fmt1 : ℚ → String
  fmt2 : PyVal → String

/-- Everything one call of the handler produces: the HTTP response, the
module-global state afterwards, whether a model load was attempted, whether
`MODEL.transcribe` was called, the upload written to disk, and the saved
docx (path and contents), if any. -/
structure TranscribeOutcome where
  response : Response
  state : ServerState
  loadAttempted : Bool
  transcribeAttempted : Bool
  savedUpload : String × Bytes
  savedDoc : Option (String × Docx)

/-- Handler line `base_name = os.path.splitext(file.filename or "audio")[0]`. -/
def base_name (req : TranscribeRequest) : String :=
  (splitext (pyOrStr req.file.filename "audio")).1

/-- Handler line `ext = os.path.splitext(file.filename or "")[1].lower() or ".wav"`. -/
def fileExt (req : TranscribeRequest) : String :=
  pyOrS (pyLower (splitext (pyOrStr req.file.filename "")).2) ".wav"

/-- Handler line building `input_path` in `OUTPUT_DIR`. -/
def input_path (env : TranscribeEnv) (req : TranscribeRequest) : String :=
  pyJoin OUTPUT_DIR (base_name req ++ "_" ++ env.uid ++ fileExt req)

/-- Handler line `current_model_name = getattr(MODEL, 'name', DEFAULT_MODEL)`. -/
def current_model_name (st : ServerState) : String :=
  (st.MODEL.name).getD st.DEFAULT_MODEL

/-- Condition of the reload branch: `model_size and model_size != current_model_name`. -/
def needsLoad (st : ServerState) (req : TranscribeRequest) : Bool :=
  req.model_size != "" && req.model_size != current_model_name st

/-- The model in force after the conditional reload: a fresh
`whisper.load_model(model_size)` when the branch is taken (which may
raise), the unchanged `MODEL` otherwise. -/
def modelAfterLoad (env : TranscribeEnv) (st : ServerState) (req : TranscribeRequest) :
    Except String WhisperModel :=
  if needsLoad st req then env.loadModel req.model_size else Except.ok st.MODEL

/-- The 400 body's message `f"Failed to load model '{model_size}': {e}"`. -/
def loadFailMsg (ms e : String) : String :=
  "Failed to load model " ++ squote ++ ms ++ squote ++ ": " ++ e

/-- Handler line `text = (result.get("text") or "").strip()`. -/
def resultText (r : TranscribeResult) : String :=
  pyStrip (pyOrStr r.text "")

/-- Handler line `segments = result.get("segments", []) or []`. -/
def resultSegments (r : TranscribeResult) : List Segment :=
  r.segments.getD []

/-- Handler lines computing `duration`: `None`, unless segments is
non-empty, in which case `float(segments[-1].get("end", 0.0))` guarded by
`try/except` (a raised coercion falls back to `None`). -/
def durationOf (r : TranscribeResult) : Option ℚ :=
  match (resultSegments r).getLast? with
  | none => none
  | some s => floatCoerce ((s.«end»).getD (PyVal.vnum 0))

/-- Handler line `docx_name = f"{base_name}_{ts}.docx"`. -/
def docx_name (env : TranscribeEnv) (req : TranscribeRequest) : String :=
  base_name req ++ "_" ++ env.ts ++ ".docx"

/-- Handler line `docx_path = os.path.join(OUTPUT_DIR, docx_name)`. -/
def docx_path (env : TranscribeEnv) (req : TranscribeRequest) : String :=
  pyJoin OUTPUT_DIR (docx_name env req)

/-- JSON encoding of an optional string (`None` becomes `null`). -/
def jsonOfOptStr : Option String → JsonVal
  | none => JsonVal.jnull
  | some s => JsonVal.jstr s

/-- JSON encoding of an optional number (`None` becomes `null`). -/
def jsonOfOptNum : Option ℚ → JsonVal
  | none => JsonVal.jnull
  | some q => JsonVal.jnum q

/-- JSON encoding of a segment field value. -/
def pyValToJson : PyVal → JsonVal
  | .vnone => JsonVal.jnull
  | .vnum q => JsonVal.jnum q
  | .vstr s => JsonVal.jstr s

/-- JSON encoding of one segment dict (only keys present in the dict appear). -/
def segToJson (s : Segment) : JsonVal :=
  JsonVal.jobj
    ((match s.start with | some v => [("start", pyValToJson v)] | none => []) ++
     (match s.«end» with | some v => [("end", pyValToJson v)] | none => []) ++
     (match s.text with | some t => [("text", JsonVal.jstr t)] | none => []))

/-- The runs of the metadata paragraph: Source and Model always; Detected
language and Duration only when truthy (`if language:` / `if duration:`,
so `None`, the empty string and `0.0` are all skipped). -/
def metaRuns (env : TranscribeEnv) (req : TranscribeRequest) (r : TranscribeResult) :
    List DocxRun :=
  [⟨"Source: ", true⟩,
   ⟨pyOrStr req.file.filename "Uploaded file", false⟩,
   ⟨"\nModel: ", true⟩,
   ⟨req.model_size, false⟩] ++
  (match r.language with
   | some l => if l = "" then [] else [⟨"\nDetected language: ", true⟩, ⟨l, false⟩]
   | none => []) ++
  (match durationOf r with
   | some q => if q = 0 then [] else [⟨"\nDuration: ", true⟩, ⟨env.fmt1 q ++ "s", false⟩]
   | none => [])

/-- Effect of `doc.add_paragraph(s)`: a paragraph with a single non-bold
run, or no run at all when `s` is empty. -/
def addPara (s : String) : DocxItem :=
  DocxItem.para (if s = "" then [] else [⟨s, false⟩])

/-- One paragraph of the Segments section:
`f"[{start:.2f}s → {end:.2f}s] {stext}"` with the `.get` defaults. -/
def segPara (env : TranscribeEnv) (s : Segment) : DocxItem :=
  addPara ("[" ++ env.fmt2 ((s.start).getD (PyVal.vnum 0)) ++ "s → " ++
           env.fmt2 ((s.«end»).getD (PyVal.vnum 0)) ++ "s] " ++
           pyStrip (pyOrStr s.text ""))

/-- The whole generated document, in the order the handler adds items. -/
def buildDoc (env : TranscribeEnv) (req : TranscribeRequest) (r : TranscribeResult) : Docx :=
  [DocxItem.heading "Transcription" 1,
   DocxItem.para (metaRuns env req r),
   addPara ""] ++
  (if resultText r = "" then [] else [addPara (resultText r)]) ++
  (if (resultSegments r).isEmpty then []
   else [DocxItem.pageBreak, DocxItem.heading "Segments" 2] ++
        (resultSegments r).map (segPara env))

/-- The success JSON body, fields in the order the handler's dict lists them. -/
def successBody (env : TranscribeEnv) (req : TranscribeRequest) (r : TranscribeResult) :
    List (String × JsonVal) :=
  [("ok", JsonVal.jbool true),
   ("text", JsonVal.jstr (resultText r)),
   ("docx_file", JsonVal.jstr ("/download/" ++ docx_name env req)),
   ("model", JsonVal.jstr req.model_size),
   ("language", jsonOfOptStr r.language),
   ("duration_seconds", jsonOfOptNum (durationOf r)),
   ("segments", JsonVal.jarr ((resultSegments r).map segToJson)),
   ("filename", jsonOfOptStr req.file.filename)]

/-- The POST `/api/transcribe` handler: save the upload, conditionally
reload the model (400 on failure, `MODEL` untouched), transcribe (500 on
failure), then build the docx and the success JSON. -/
def transcribe_api (env : TranscribeEnv) (st : ServerState) (req : TranscribeRequest) :
    TranscribeOutcome :=
  let up := (input_path env req, req.file.content)
  match modelAfterLoad env st req with
  | Except.error e =>
    { response := Response.json 400 [("error", JsonVal.jstr (loadFailMsg req.model_size e))],
      state := st,
      loadAttempted := needsLoad st req,
      transcribeAttempted := false,
      savedUpload := up,
      savedDoc := none }
  | Except.ok M =>
    match env.transcribeFn M (input_path env req) req.task req.temperature
        ((req.word_timestamps).getD false) with
    | Except.error e =>
      { response := Response.json 500 [("error", JsonVal.jstr ("Transcription failed: " ++ e))],
        state := { st with MODEL := M },
        loadAttempted := needsLoad st req,
        transcribeAttempted := true,
        savedUpload := up,
        savedDoc := none }
    | Except.ok r =>
      { response := Response.json 200 (successBody env req r),
        state := { st with MODEL := M },
        loadAttempted := needsLoad st req,
        transcribeAttempted := true,
        savedUpload := up,
        savedDoc := some (docx_path env req, buildDoc env req r) }

/-- The GET `/health` handler: `{"ok": True, "model": DEFAULT_MODEL}`. -/
def health (st : ServerState) : Response :=
  Response.json 200 [("ok", JsonVal.jbool true), ("model", JsonVal.jstr st.DEFAULT_MODEL)]

/-- The GET `/download/{fname}` handler over a filesystem `fs` (existing
file path to bytes): 404 JSON when the joined path does not exist, the
file's bytes otherwise. -/
def download_file (fs : String → Option Bytes) (fname : String) : Response :=
  match fs (pyJoin OUTPUT_DIR fname) with
  | none => Response.json 404 [("error", JsonVal.jstr "File not found")]
  | some bs => Response.fileResp bs fname

/-- States the module globals can reach from the startup state: any
sequence of `/api/transcribe` requests (the only handler that mutates
them), each with its own environment and request. -/
inductive Reachable (init : ServerState) : ServerState → Prop where
  | refl : Reachable init init
  | step (env : TranscribeEnv) (req : TranscribeRequest) {s : ServerState} :
      Reachable init s → Reachable init (transcribe_api env s req).state

/-! Concrete fixtures used by the witness and counterexample theorems. -/

/-- A model whose loaded name is `"base"`. -/
def modelBase : WhisperModel := ⟨some "base"⟩

/-- A server state with the base model loaded and default `"base"`. -/
def stW : ServerState := { MODEL := modelBase, DEFAULT_MODEL := "base" }

/-- A sample segment with numeric timestamps. -/
def segW : Segment :=
  { start := some (PyVal.vnum 0), «end» := some (PyVal.vnum (5 / 2)), text := some "hello" }

/-- A sample successful transcription result. -/
def resultW : TranscribeResult :=
  { text := some " hello world ", segments := some [segW], language := some "en" }

/-- A sample environment: loading `"bogus"` raises `boom`, any other load
succeeds with a model carrying that name, transcription succeeds. -/
def envW : TranscribeEnv :=
  { loadModel := fun s => if s = "bogus" then Except.error "boom" else Except.ok ⟨some s⟩,
    transcribeFn := fun _ _ _ _ _ => Except.ok resultW,
    uid := "abcd1234",
    ts := "20260101_120000",
    fmt1 := fun _ => "2.5",
    fmt2 := fun _ => "0.00" }

/-- Same environment except that every transcription call raises `cuda oom`. -/
def envT : TranscribeEnv :=
  { envW with transcribeFn := fun _ _ _ _ _ => Except.error "cuda oom" }

/-- A sample request asking for model `"small"`. -/
def reqW : TranscribeRequest :=
  { file := { filename := some "talk.mp3", content := [1, 2, 3] },
    model_size := "small",
    task := "transcribe",
    temperature := 0,
    word_timestamps := some false }

/-- The same request asking for the unknown model `"bogus"`. -/
def reqBad : TranscribeRequest := { reqW with model_size := "bogus" }

/-! Helper lemmas shared by the claim theorems. -/

/-- Every branch of the handler records a load attempt exactly when the
reload condition held. -/
theorem loadAttempted_eq (env : TranscribeEnv) (st : ServerState) (req : TranscribeRequest) :
    (transcribe_api env st req).loadAttempted = needsLoad st req := by
  cases h : modelAfterLoad env st req with
  | error e => simp [transcribe_api, h]
  | ok M =>
    cases h2 : env.transcribeFn M (input_path env req) req.task req.temperature
        ((req.word_timestamps).getD false) with
    | error e => simp [transcribe_api, h, h2]
    | ok r => simp [transcribe_api, h, h2]

/-- The reload condition, as a proposition. -/
theorem needsLoad_iff (st : ServerState) (req : TranscribeRequest) :
    needsLoad st req = true ↔
      (req.model_size ≠ "" ∧ req.model_size ≠ current_model_name st) := by
  simp [needsLoad]

/-- No branch of the handler touches `DEFAULT_MODEL`. -/
theorem state_DEFAULT_eq (env : TranscribeEnv) (st : ServerState) (req : TranscribeRequest) :
    (transcribe_api env st req).state.DEFAULT_MODEL = st.DEFAULT_MODEL := by
  cases h : modelAfterLoad env st req with
  | error e => simp [transcribe_api, h]
  | ok M =>
    cases h2 : env.transcribeFn M (input_path env req) req.task req.temperature
        ((req.word_timestamps).getD false) with
    | error e => simp [transcribe_api, h, h2]
    | ok r => simp [transcribe_api, h, h2]

/-- Reachability never changes `DEFAULT_MODEL`. -/
theorem reachable_DEFAULT {init s : ServerState} (h : Reachable init s) :
    s.DEFAULT_MODEL = init.DEFAULT_MODEL := by
  induction h with
  | refl => rfl
  | step env req hr ih => rw [state_DEFAULT_eq]; exact ih

/-! Claim theorems. -/

/-- C1: a POST `/api/transcribe` request attempts a fresh model load exactly
when its `model_size` is non-empty and differs from the current model's name
(as computed by `getattr(MODEL, 'name', DEFAULT_MODEL)`); when `model_size`
equals that name, `MODEL` is left unchanged and no load is attempted; and
when the condition holds and the load succeeds, `MODEL` is reassigned to the
freshly loaded model. -/
theorem claim1_conditional_model_reload (env : TranscribeEnv) (st : ServerState)
    (req : TranscribeRequest) :
    ((transcribe_api env st req).loadAttempted = true ↔
      (req.model_size ≠ "" ∧ req.model_size ≠ current_model_name st)) ∧
    (req.model_size = current_model_name st →
      (transcribe_api env st req).state.MODEL = st.MODEL ∧
      (transcribe_api env st req).loadAttempted = false) ∧
    (∀ M, env.loadModel req.model_size = Except.ok M →
      req.model_size ≠ "" → req.model_size ≠ current_model_name st →
      (transcribe_api env st req).state.MODEL = M) := by
  refine ⟨?_, ?_, ?_⟩
  · rw [loadAttempted_eq]; exact needsLoad_iff st req
  · intro h
    have hn : needsLoad st req = false := by simp [needsLoad, h]
    have hm : modelAfterLoad env st req = Except.ok st.MODEL := by
      simp [modelAfterLoad, hn]
    refine ⟨?_, by rw [loadAttempted_eq]; exact hn⟩
    cases h2 : env.transcribeFn st.MODEL (input_path env req) req.task req.temperature
        ((req.word_timestamps).getD false) with
    | error e => simp [transcribe_api, hm, h2]
    | ok r => simp [transcribe_api, hm, h2]
  · intro M hload hne hne2
    have hn : needsLoad st req = true := (needsLoad_iff st req).mpr ⟨hne, hne2⟩
    have hm : modelAfterLoad env st req = Except.ok M := by
      simp [modelAfterLoad, hn, hload]
    cases h2 : env.transcribeFn M (input_path env req) req.task req.temperature
        ((req.word_timestamps).getD false) with
    | error e => simp [transcribe_api, hm, h2]
    | ok r => simp [transcribe_api, hm, h2]

/-- Witness for C1: with the base model loaded, asking for `"small"`
reassigns `MODEL` to the freshly loaded small model. -/
theorem claim1_witness :
    (transcribe_api envW stW reqW).state.MODEL = WhisperModel.mk (some "small") :=
  (claim1_conditional_model_reload envW stW reqW).2.2 ⟨some "small"⟩ rfl
    (by decide) (by decide)

/-- Counterexample for C2 as stated: loading the unknown model `"bogus"`
raises an exception whose stringification is `boom`, but the error field's
value is the longer prefixed message, not the stringified exception itself. -/
theorem claim2_counterexample :
    (transcribe_api envW stW reqBad).response =
      Response.json 400 [("error", JsonVal.jstr (loadFailMsg "bogus" "boom"))] ∧
    loadFailMsg "bogus" "boom" ≠ "boom" := ⟨rfl, by decide⟩

/-- C2 (amended): when the conditional model load raises, the response is a
400 JSON whose `error` value is `Failed to load model '<model_size>': `
followed by the stringified exception (so it contains the stringified
exception), no transcription is attempted, and no document is generated. -/
theorem claim2_load_failure_response (env : TranscribeEnv) (st : ServerState)
    (req : TranscribeRequest) (e : String)
    (h : modelAfterLoad env st req = Except.error e) :
    (transcribe_api env st req).response =
      Response.json 400 [("error", JsonVal.jstr (loadFailMsg req.model_size e))] ∧
    (transcribe_api env st req).transcribeAttempted = false ∧
    (transcribe_api env st req).savedDoc = none ∧
    List.IsInfix e.data (loadFailMsg req.model_size e).data := by
  refine ⟨by simp [transcribe_api, h], by simp [transcribe_api, h],
    by simp [transcribe_api, h], ?_⟩
  exact ⟨("Failed to load model " ++ squote ++ req.model_size ++ squote ++ ": ").data,
    [], by simp [loadFailMsg]⟩

/-- Witness for C2 (amended): the concrete failed load of `"bogus"`. -/
theorem claim2_witness :
    (transcribe_api envW stW reqBad).response =
      Response.json 400 [("error", JsonVal.jstr (loadFailMsg "bogus" "boom"))] ∧
    (transcribe_api envW stW reqBad).transcribeAttempted = false ∧
    (transcribe_api envW stW reqBad).savedDoc = none ∧
    List.IsInfix "boom".data (loadFailMsg "bogus" "boom").data :=
  claim2_load_failure_response envW stW reqBad "boom" rfl

/-- Counterexample for C3 as stated: a transcription call that raises an
exception stringifying to `cuda oom` yields an error field holding the
longer prefixed message, not the stringified exception itself. -/
theorem claim3_counterexample :
    (transcribe_api envT stW reqW).response =
      Response.json 500 [("error", JsonVal.jstr ("Transcription failed: " ++ "cuda oom"))] ∧
    "Transcription failed: " ++ "cuda oom" ≠ "cuda oom" := ⟨rfl, by decide⟩

/-- C3 (amended): when the transcribe call raises, the response is a 500
JSON whose `error` value is `Transcription failed: ` followed by the
stringified exception (so it contains the stringified exception), and no
document is generated. -/
theorem claim3_transcription_failure_response (env : TranscribeEnv) (st : ServerState)
    (req : TranscribeRequest) (M : WhisperModel) (e : String)
    (hM : modelAfterLoad env st req = Except.ok M)
    (ht : env.transcribeFn M (input_path env req) req.task req.temperature
        ((req.word_timestamps).getD false) = Except.error e) :
    (transcribe_api env st req).response =
      Response.json 500 [("error", JsonVal.jstr ("Transcription failed: " ++ e))] ∧
    (transcribe_api env st req).savedDoc = none ∧
    List.IsInfix e.data ("Transcription failed: " ++ e).data := by
  refine ⟨by simp [transcribe_api, hM, ht], by simp [transcribe_api, hM, ht], ?_⟩
  exact ⟨"Transcription failed: ".data, [], by simp⟩

/-- Witness for C3 (amended): the concrete failed transcription. -/
theorem claim3_witness :
    (transcribe_api envT stW reqW).response =
      Response.json 500 [("error", JsonVal.jstr ("Transcription failed: " ++ "cuda oom"))] ∧
    (transcribe_api envT stW reqW).savedDoc = none ∧
    List.IsInfix "cuda oom".data ("Transcription failed: " ++ "cuda oom").data :=
  claim3_transcription_failure_response envT stW reqW ⟨some "small"⟩ "cuda oom" rfl rfl

/-- C4: GET `/download/{fname}` serves the file's bytes when a file exists
at the joined path under the output directory, and a 404 error JSON when
none does. -/
theorem claim4_download (fs : String → Option Bytes) (fname : String) :
    (fs (pyJoin OUTPUT_DIR fname) = none →
      download_file fs fname =
        Response.json 404 [("error", JsonVal.jstr "File not found")]) ∧
    (∀ bs, fs (pyJoin OUTPUT_DIR fname) = some bs →
      download_file fs fname = Response.fileResp bs fname) := by
  constructor
  · intro h; simp [download_file, h]
  · intro bs h; simp [download_file, h]

/-- A one-file filesystem for the C4 witness. -/
def fsW : String → Option Bytes :=
  fun p => if p = "outputs/doc.docx" then some [80, 75] else none

/-- Witness for C4: a missing name yields the 404 JSON, an existing name
yields the stored bytes. -/
theorem claim4_witness :
    download_file fsW "missing.docx" =
      Response.json 404 [("error", JsonVal.jstr "File not found")] ∧
    download_file fsW "doc.docx" = Response.fileResp [80, 75] "doc.docx" :=
  ⟨(claim4_download fsW "missing.docx").1 rfl,
   (claim4_download fsW "doc.docx").2 [80, 75] rfl⟩

/-- C5: a request whose load and transcription both succeed gets a 200 JSON
body whose fields are exactly `ok, text, docx_file, model, language,
duration_seconds, segments, filename` in that order, with `ok = true`,
`model` the requested `model_size`, `filename` the upload's filename, and
`docx_file` the `/download/` path of the document saved to disk. -/
theorem claim5_success_response (env : TranscribeEnv) (st : ServerState)
    (req : TranscribeRequest) (M : WhisperModel) (r : TranscribeResult)
    (hM : modelAfterLoad env st req = Except.ok M)
    (ht : env.transcribeFn M (input_path env req) req.task req.temperature
        ((req.word_timestamps).getD false) = Except.ok r) :
    (transcribe_api env st req).response = Response.json 200 (successBody env req r) ∧
    (successBody env req r).map Prod.fst =
      ["ok", "text", "docx_file", "model", "language", "duration_seconds",
       "segments", "filename"] ∧
    List.lookup "ok" (successBody env req r) = some (JsonVal.jbool true) ∧
    List.lookup "model" (successBody env req r) = some (JsonVal.jstr req.model_size) ∧
    List.lookup "filename" (successBody env req r) =
      some (jsonOfOptStr req.file.filename) ∧
    List.lookup "docx_file" (successBody env req r) =
      some (JsonVal.jstr ("/download/" ++ docx_name env req)) ∧
    (transcribe_api env st req).savedDoc =
      some (docx_path env req, buildDoc env req r) := by
  exact ⟨by simp [transcribe_api, hM, ht], rfl, rfl, rfl, rfl, rfl,
    by simp [transcribe_api, hM, ht]⟩

/-- Witness for C5: the concrete successful request. -/
theorem claim5_witness :
    (transcribe_api envW stW reqW).response =
      Response.json 200 (successBody envW reqW resultW) :=
  (claim5_success_response envW stW reqW ⟨some "small"⟩ resultW rfl rfl).1

/-- C6: on a successful request the `duration_seconds` field is the `end`
value of the last segment (coerced to float, the `get` defaulting to `0.0`
when the key is absent) when the segments list is non-empty, and `null` when
the list is empty or the coercion raises. -/
theorem claim6_duration_from_last_segment (env : TranscribeEnv) (st : ServerState)
    (req : TranscribeRequest) (M : WhisperModel) (r : TranscribeResult)
    (hM : modelAfterLoad env st req = Except.ok M)
    (ht : env.transcribeFn M (input_path env req) req.task req.temperature
        ((req.word_timestamps).getD false) = Except.ok r) :
    (transcribe_api env st req).response = Response.json 200 (successBody env req r) ∧
    (resultSegments r = [] →
      List.lookup "duration_seconds" (successBody env req r) = some JsonVal.jnull) ∧
    (∀ s q, (resultSegments r).getLast? = some s →
      floatCoerce ((s.«end»).getD (PyVal.vnum 0)) = some q →
      List.lookup "duration_seconds" (successBody env req r) =
        some (JsonVal.jnum q)) ∧
    (∀ s, (resultSegments r).getLast? = some s →
      floatCoerce ((s.«end»).getD (PyVal.vnum 0)) = none →
      List.lookup "duration_seconds" (successBody env req r) = some JsonVal.jnull) := by
  refine ⟨by simp [transcribe_api, hM, ht], ?_, ?_, ?_⟩
  · intro h
    show some (jsonOfOptNum (durationOf r)) = _
    simp [durationOf, h, jsonOfOptNum]
  · intro s q hlast hc
    show some (jsonOfOptNum (durationOf r)) = _
    simp [durationOf, hlast, hc, jsonOfOptNum]
  · intro s hlast hc
    show some (jsonOfOptNum (durationOf r)) = _
    simp [durationOf, hlast, hc, jsonOfOptNum]

/-- Witness for C6: the sample result's last segment ends at `5/2`, and the
response's `duration_seconds` is exactly that number. -/
theorem claim6_witness :
    List.lookup "duration_seconds" (successBody envW reqW resultW) =
      some (JsonVal.jnum (5 / 2)) :=
  (claim6_duration_from_last_segment envW stW reqW ⟨some "small"⟩ resultW rfl rfl).2.2.1
    segW (5 / 2) rfl rfl

/-- The source filename as the claim words it: the upload's filename, or
the placeholder `Uploaded file` when the upload has none. -/
def claimFilename (req : TranscribeRequest) : String :=
  match req.file.filename with
  | some f => f
  | none => "Uploaded file"

/-- Concatenation of a list of strings. -/
def joinAll : List String → String
  | [] => ""
  | a :: t => a ++ joinAll t

/-- The full text of the generated document's metadata paragraph. -/
def metaText (env : TranscribeEnv) (req : TranscribeRequest) (r : TranscribeResult) :
    String :=
  joinAll ((metaRuns env req r).map DocxRun.text)

/-- A string occurring in a list is a substring of the list's concatenation. -/
theorem infix_joinAll {x : String} {l : List String} (hx : x ∈ l) :
    List.IsInfix x.data (joinAll l).data := by
  induction l with
  | nil => cases hx
  | cons a t ih =>
    cases hx with
    | head => exact ⟨[], (joinAll t).data, by simp [joinAll]⟩
    | tail _ h =>
      obtain ⟨s, u, hsu⟩ := ih h
      refine ⟨a.data ++ s, u, ?_⟩
      have hre : a.data ++ s ++ x.data ++ u = a.data ++ (s ++ x.data ++ u) := by
        simp [List.append_assoc]
      rw [hre, hsu]
      simp [joinAll]

/-- C7: on a successful request the saved document's second item is the
metadata paragraph, whose text contains the upload's source filename (the
placeholder `Uploaded file` standing in when there is none) and the
requested model name. -/
theorem claim7_doc_metadata (env : TranscribeEnv) (st : ServerState)
    (req : TranscribeRequest) (M : WhisperModel) (r : TranscribeResult)
    (hM : modelAfterLoad env st req = Except.ok M)
    (ht : env.transcribeFn M (input_path env req) req.task req.temperature
        ((req.word_timestamps).getD false) = Except.ok r) :
    (transcribe_api env st req).savedDoc =
      some (docx_path env req, buildDoc env req r) ∧
    (buildDoc env req r)[1]? = some (DocxItem.para (metaRuns env req r)) ∧
    List.IsInfix (claimFilename req).data (metaText env req r).data ∧
    List.IsInfix req.model_size.data (metaText env req r).data := by
  refine ⟨by simp [transcribe_api, hM, ht], by simp [buildDoc], ?_, ?_⟩
  · cases hf : req.file.filename with
    | none =>
      apply infix_joinAll
      simp [metaRuns, claimFilename, hf, pyOrStr]
    | some f =>
      by_cases hf0 : f = ""
      · have hd : claimFilename req = "" := by simp [claimFilename, hf, hf0]
        rw [hd]
        exact List.nil_infix
      · apply infix_joinAll
        simp [metaRuns, claimFilename, hf, pyOrStr, hf0]
  · apply infix_joinAll
    simp [metaRuns]

/-- Witness for C7: the concrete successful request's saved document and
its metadata paragraph containing `talk.mp3`. -/
theorem claim7_witness :
    (transcribe_api envW stW reqW).savedDoc =
      some (docx_path envW reqW, buildDoc envW reqW resultW) ∧
    List.IsInfix (claimFilename reqW).data (metaText envW reqW resultW).data :=
  ⟨(claim7_doc_metadata envW stW reqW ⟨some "small"⟩ resultW rfl rfl).1,
   (claim7_doc_metadata envW stW reqW ⟨some "small"⟩ resultW rfl rfl).2.2.1⟩

/-- C8: GET `/health` returns `{"ok": true, "model": DEFAULT_MODEL}`, the
model field holding the default model's name. -/
theorem claim8_health_ok (st : ServerState) :
    health st = Response.json 200
      [("ok", JsonVal.jbool true), ("model", JsonVal.jstr st.DEFAULT_MODEL)] := rfl

/-- C9: when the conditional model load raises, the module-global state is
exactly the state before the request (in particular `MODEL` is unchanged),
and the response is the 400 error JSON. -/
theorem claim9_model_unchanged_on_load_failure (env : TranscribeEnv) (st : ServerState)
    (req : TranscribeRequest) (e : String)
    (h : modelAfterLoad env st req = Except.error e) :
    (transcribe_api env st req).state = st ∧
    (transcribe_api env st req).response =
      Response.json 400 [("error", JsonVal.jstr (loadFailMsg req.model_size e))] := by
  constructor <;> simp [transcribe_api, h]

/-- Witness for C9: the failed load of `"bogus"` leaves the state intact. -/
theorem claim9_witness :
    (transcribe_api envW stW reqBad).state = stW ∧
    (transcribe_api envW stW reqBad).response =
      Response.json 400 [("error", JsonVal.jstr (loadFailMsg "bogus" "boom"))] :=
  claim9_model_unchanged_on_load_failure envW stW reqBad "boom" rfl

/-- C10: in every reachable state, GET `/health` reports the startup default
model name (the `WHISPER_MODEL` environment value, or `"base"` when unset),
even after requests have swapped the global `MODEL`. -/
theorem claim10_health_reports_startup_default (wm : Option String) (m : WhisperModel)
    (s : ServerState) (h : Reachable (initState wm m) s) :
    health s = Response.json 200
      [("ok", JsonVal.jbool true), ("model", JsonVal.jstr (defaultModelName wm))] := by
  have hd := reachable_DEFAULT h
  simp [health, hd, initState]

/-- Witness for C10: after one request that swaps `MODEL` to `"small"`,
health still reports `"base"`. -/
theorem claim10_witness :
    health (transcribe_api envW (initState none modelBase) reqW).state =
      Response.json 200 [("ok", JsonVal.jbool true), ("model", JsonVal.jstr "base")] :=
  claim10_health_reports_startup_default none modelBase _
    (Reachable.step envW reqW Reachable.refl)

end NovaTranscribe
